import Mathlib

/-!
Verification model of the OpenLoco simulation core (OpenLoco.cpp):
the tick executor (tickLogic), the date boundary pass (dateTick), the
autosave manager (autosaveCheck, autosaveClean, autosaveReset), the
timestep scheduler (update, variableUpdate) and the per-pass update
count computation of tick().

External collaborators (subsystem updaters, UI windows, the network
transport, the filesystem) are modelled as an event log plus an opaque
subsystem blob transformed by an environment function: the source calls
them in a fixed order and none of them touches the scenario counters,
the load-error cell or the autosave counter, which are owned by the
code modelled here.

The scheduler works on C++ doubles; those are modelled exactly as
rational numbers together with an explicit round-to-nearest-even
function at 53 bits of precision (24 bits for float), valid on the
normal range, which is all these computations use.
-/

namespace OpenLocoModel

/-- Observable calls into external collaborators, in the order the
source makes them.  Each constructor corresponds to one call site in
OpenLoco.cpp. -/
inductive Event where
  | processGameCommands (tick : Nat)
  | recordPrng
  | tileDefrag
  | tileUpdate
  | waveUpdate
  | townUpdate
  | industryUpdate
  | vehicleUpdate
  | stationUpdate
  | effectsUpdate
  | companyUpdate
  | animationUpdate
  | vehicleNoise
  | ambientNoise
  | titleUpdate
  | stationDaily
  | vehicleDaily
  | industryDaily
  | messageDaily
  | windowDaily
  | updateSnowLine (dayOfYear : Nat)
  | invalidateFrame
  | townMonthly
  | industryMonthly
  | companyMonthly1
  | companyMonthlyHQ
  | vehicleMonthly
  | economyMonthly
  | companyQuarterly
  | companyYearly
  | updateLevelCrossing
  | objectYearly2
  | tileYearly
  | companyDaily
  | errorOpen (title : Nat)
  | objectLoadErrorOpen
  | autosaveExport (succeeded : Bool)
  | autosaveCleanRun
deriving DecidableEq

/-- Modelled from the spec: the calendar date produced by the external
date utility calcDate (Date.cpp is not part of the sample); month is
the MonthId ordinal, january = 0. -/
structure Date where
  year : Int
  month : Nat
  day : Nat
  dayOfYear : Nat
deriving DecidableEq

/-- The simulation state owned by the modelled code: the scenario tick
counters (uint32), the load-error cell (int8 code plus StringId), the
autosave cadence counter (int32), the day counter and current date, the
objective progress month counter (uint16), the madeAnyChanges flag and
its save slot at 0x00F25374 (uint8), an opaque blob for everything the
external subsystems own, and the log of external calls made so far. -/
structure GState where
  scenarioTicks : Nat
  scenarioTicks2 : Nat
  loadErrorCode : Int
  loadErrorMessage : Nat
  monthsSinceLastAutosave : Int
  currentDay : Nat
  date : Date
  monthsInChallenge : Nat
  madeAnyChanges : Nat
  f25374 : Nat
  sub : Nat
  events : List Event
deriving DecidableEq

/-- The external collaborators consumed by the modelled code:
Network::shouldProcessTick, the subsystem updaters (as one transform of
the opaque blob, indexed by the call), the external date utilities
updateDayCounter and calcDate (modelled from the spec: a day boundary
is detected by an increment of the day counter, and calcDate recomputes
the calendar date from it), the scene flags, and the autosave
configuration, with saveSucceeds standing for whether
S5::exportGameStateToFile throws. -/
structure Env where
  shouldProcessTick : Nat → Bool
  extUpdate : Event → Nat → Nat
  updateDayCounter : Nat → Bool × Nat
  calcDate : Nat → Date
  tileManagerLoaded : Bool
  isEditorMode : Bool
  isTitleMode : Bool
  autosaveFrequency : Int
  saveSucceeds : Bool

/-- A call into an external collaborator: records the event and lets
the environment transform the externally owned blob.  External calls
touch nothing else in the state. -/
def callExt (env : Env) (e : Event) (s : GState) : GState :=
  { s with sub := env.extUpdate e s.sub, events := s.events ++ [e] }

/-- Source autosaveReset: resets the months-since-last-autosave
counter to zero. -/
def autosaveReset (s : GState) : GState :=
  { s with monthsSinceLastAutosave := 0 }

/-- Source autosave: formats a timestamped filename and exports the
game state; any exception is caught and logged inside this function, so
it never propagates.  Modelled as the export event carrying whether the
persistence step succeeded. -/
def autosave (env : Env) (s : GState) : GState :=
  callExt env (.autosaveExport env.saveSucceeds) s

/-- Source autosaveCheck: increments the cadence counter, then outside
title mode, when the configured frequency is positive and reached,
runs autosave, autosaveClean and autosaveReset. -/
def autosaveCheck (env : Env) (s : GState) : GState :=
  let s1 := { s with monthsSinceLastAutosave := s.monthsSinceLastAutosave + 1 }
  if env.isTitleMode = false then
    if env.autosaveFrequency > 0 ∧ s1.monthsSinceLastAutosave ≥ env.autosaveFrequency then
      autosaveReset (callExt env .autosaveCleanRun (autosave env s1))
    else s1
  else s1

/-- Source dateTick, the economy-update statement of the month-changed
block: Economy::updateMonthly runs exactly when the year is at most
2029. -/
def econUpdateStage (env : Env) (today : Date) (s : GState) : GState :=
  if today.year ≤ 2029 then callExt env .economyMonthly s else s

/-- Source dateTick, the quarterly statement of the month-changed
block: CompanyManager::updateQuarterly runs in january, april, july and
october. -/
def quarterlyStage (env : Env) (today : Date) (s : GState) : GState :=
  if today.month = 0 ∨ today.month = 3 ∨ today.month = 6 ∨ today.month = 9 then
    callExt env .companyQuarterly s
  else s

/-- Source dateTick, the year-changed statement of the month-changed
block: the yearly updaters run when the year differs from the previous
day. -/
def yearlyStage (env : Env) (today yesterday : Date) (s : GState) : GState :=
  if today.year ≠ yesterday.year then
    callExt env .tileYearly
      (callExt env .objectYearly2
        (callExt env .updateLevelCrossing
          (callExt env .companyYearly s)))
  else s

/-- Source dateTick, month-changed block: objective progress (uint16),
the monthly updaters, the economy update gated on year ≤ 2029, the
quarterly update on the four quarter months, the yearly updaters when
the year changed, then autosaveCheck. -/
def dateTickMonthly (env : Env) (today yesterday : Date) (s : GState) : GState :=
  autosaveCheck env
    (yearlyStage env today yesterday
      (quarterlyStage env today
        (econUpdateStage env today
          (callExt env .vehicleMonthly
            (callExt env .companyMonthlyHQ
              (callExt env .companyMonthly1
                (callExt env .industryMonthly
                  (callExt env .townMonthly
                    { s with monthsInChallenge := (s.monthsInChallenge + 1) % 65536 }))))))))

/-- Source dateTick, the month-changed statement: the monthly block
runs exactly when the recomputed month differs from the previous
day. -/
def monthlyStage (env : Env) (today yesterday : Date) (s : GState) : GState :=
  if today.month ≠ yesterday.month then dateTickMonthly env today yesterday s else s

/-- Source setDate: store the recomputed calendar date. -/
def setDate (d : Date) (s : GState) : GState :=
  { s with date := d }

/-- Source dateTick, day-boundary branch: the daily updaters, the date
recomputation (yesterday is the day counter minus one in uint32
arithmetic), the seasonal and UI refreshes, the month-changed block
when the month differs, and the unconditional company daily update. -/
def dateTickDaily (env : Env) (s : GState) : GState :=
  let s5 := callExt env .windowDaily
    (callExt env .messageDaily
      (callExt env .industryDaily
        (callExt env .vehicleDaily
          (callExt env .stationDaily s))))
  let yesterday := env.calcDate ((s5.currentDay + 4294967295) % 4294967296)
  let today := env.calcDate s5.currentDay
  callExt env .companyDaily
    (monthlyStage env today yesterday
      (callExt env .invalidateFrame
        (callExt env (.updateSnowLine today.dayOfYear) (setDate today s5))))

/-- Source dateTick: the whole pass is guarded on the tileManagerLoaded
game state flag and on not being in editor mode; inside the guard the
day counter is advanced and the day-boundary branch runs when a day
elapsed. -/
def dateTick (env : Env) (s : GState) : GState :=
  if env.tileManagerLoaded && !env.isEditorMode then
    let r := env.updateDayCounter s.currentDay
    let s1 := { s with currentDay := r.2 }
    if r.1 then dateTickDaily env s1 else s1
  else s

/-- Source tickLogic lines incrementing both scenario tick counters
(uint32 arithmetic). -/
def incrementTicks (s : GState) : GState :=
  { s with scenarioTicks := (s.scenarioTicks + 1) % 4294967296,
           scenarioTicks2 := (s.scenarioTicks2 + 1) % 4294967296 }

/-- Source tickLogic line saving madeAnyChanges into the slot at
0x00F25374. -/
def saveChangesFlag (s : GState) : GState :=
  { s with f25374 := s.madeAnyChanges }

/-- Source tickLogic line restoring madeAnyChanges from the slot at
0x00F25374. -/
def restoreChangesFlag (s : GState) : GState :=
  { s with madeAnyChanges := s.f25374 }

/-- Source tickLogic, the load-error block at the end of the tick: a
nonzero code is surfaced (code -2 opens the error message box with the
stored message as title, anything else opens the object load error
list) and the code is cleared back to zero. -/
def loadErrorStage (env : Env) (s : GState) : GState :=
  if s.loadErrorCode ≠ 0 then
    if s.loadErrorCode = -2 then
      { callExt env (.errorOpen s.loadErrorMessage) s with loadErrorCode := 0 }
    else
      { callExt env .objectLoadErrorOpen s with loadErrorCode := 0 }
  else s

/-- Source tickLogic, the mutation sequence after the network gate and
before the load-error block: increment both scenario tick counters
(uint32), apply the queued game commands for the new tick, record the
prng snapshot, defragment tiles, save the madeAnyChanges flag, run
dateTick and then the fixed subsystem update sequence in source order,
and restore the madeAnyChanges flag. -/
def tickUpdatersChain (env : Env) (s : GState) : GState :=
  restoreChangesFlag
    (callExt env .titleUpdate
      (callExt env .ambientNoise
        (callExt env .vehicleNoise
          (callExt env .animationUpdate
            (callExt env .companyUpdate
              (callExt env .effectsUpdate
                (callExt env .stationUpdate
                  (callExt env .vehicleUpdate
                    (callExt env .industryUpdate
                      (callExt env .townUpdate
                        (callExt env .waveUpdate
                          (callExt env .tileUpdate
                            (dateTick env
                              (saveChangesFlag
                                (callExt env .tileDefrag
                                  (callExt env .recordPrng
                                    (callExt env
                                      (.processGameCommands
                                        (incrementTicks s).scenarioTicks)
                                      (incrementTicks s))))))))))))))))))

/-- Source tickLogic, the part after the network gate: the mutation
sequence, then surface and clear the load-error cell. -/
def tickLogicBody (env : Env) (s : GState) : GState :=
  loadErrorStage env (tickUpdatersChain env s)

/-- Source tickLogic (the no-argument overload): ask the network layer
whether the next scenario tick may be processed; when refused, return
with the state untouched, otherwise run the tick body. -/
def tickLogic (env : Env) (s : GState) : GState :=
  if env.shouldProcessTick ((s.scenarioTicks + 1) % 4294967296) then
    tickLogicBody env s
  else s

/-- Iterate tickLogic a given number of times, first call first. -/
def tickLogicIter (env : Env) : Nat → GState → GState
  | 0, s => s
  | n + 1, s => tickLogicIter env n (tickLogic env s)

/-- Source tickLogic (the int32 count overload): a loop running the
no-argument tickLogic count times; a non-positive count runs none. -/
def tickLogicCount (env : Env) (count : Int) (s : GState) : GState :=
  tickLogicIter env count.toNat s

/-! The per-pass update count of tick(), lines 389 to 450 of the
source: everything that flows into numUpdates before tickLogic runs. -/

/-- Source GameSpeed values consulted by tick(). -/
inductive GameSpeed where
  | normal
  | fastForward
  | extraFastForward
deriving DecidableEq

/-- Source Input::State values consulted by the switch in tick(). -/
inductive InputState where
  | reset
  | normal
  | widgetPressed
  | positioningWindow
  | viewportRight
  | dropdownActive
  | viewportLeft
  | scrollLeft
  | resizing
  | scrollRight
deriving DecidableEq

/-- The inputs tick() reads while computing its update count: the
clamped milliseconds since the last tick (uint16), the multiplayer
window presence, the networked flag, the one-shot flag at 0x00525324,
the input state with the viewportScrolling flag, the pause flag, the
game speed, and the authoritative server tick (uint32). -/
structure TickInputs where
  timeSinceLastTick : Nat
  hasMultiplayerWindow : Bool
  isNetworked : Bool
  flag525324 : Bool
  inputState : InputState
  viewportScrolling : Bool
  isPaused : Bool
  gameSpeed : GameSpeed
  serverTick : Nat
deriving DecidableEq

/-- Source: numTicksBehind = Network::getServerTick() minus
ScenarioManager::getScenarioTicks(), computed in uint32 arithmetic. -/
def numTicksBehind (serverTick scenarioTicks : Nat) : Nat :=
  (serverTick % 4294967296 + 4294967296 - scenarioTicks % 4294967296) % 4294967296

/-- Source tick(): the update count pipeline.  Clamp the milliseconds
since the last tick divided by 31 to the range one to three; force one
update for the multiplayer window, a networked session, the one-shot
flag at 0x00525324 or a viewport-scroll reset in the reset, normal and
dropdownActive input states; force zero when paused; triple once per
fast-forward level; and finally, when the server is more than four
ticks ahead, set the count to the fixed catch-up value four. -/
def computeNumUpdates (inp : TickInputs) (scenarioTicks : Nat) : Nat :=
  let n1 := min (max (inp.timeSinceLastTick / 31) 1) 3
  let n2 := if inp.hasMultiplayerWindow then 1 else n1
  let n3 := if inp.isNetworked then 1 else n2
  let n4 :=
    if inp.flag525324 then 1
    else
      match inp.inputState with
      | .reset | .normal | .dropdownActive => if inp.viewportScrolling then 1 else n3
      | _ => n3
  let n5 := if inp.isPaused then 0 else n4
  let n6 :=
    match inp.gameSpeed with
    | .normal => n5
    | .fastForward => n5 * 3
    | .extraFastForward => n5 * 3 * 3
  if numTicksBehind inp.serverTick scenarioTicks > 4 then 4 else n6

/-- Source tick(), the tick-dispatch portion: compute the update count
and invoke tickLogic that many times. -/
def tick (env : Env) (inp : TickInputs) (s : GState) : GState :=
  tickLogicCount env (computeNumUpdates inp s.scenarioTicks) s

/-! The autosave retention model, source autosaveClean: directory
entries are pairs of a filename and an is-regular-file flag. -/

/-- Whether the first list of character codes is a prefix of the
second (the comparison Utility::startsWith performs). -/
def codesLeadWith : List Nat → List Nat → Bool
  | [], _ => true
  | _ :: _, [] => false
  | p :: ps, c :: cs => (p = c) && codesLeadWith ps cs

/-- The character codes of a string. -/
def strCodes (s : String) : List Nat :=
  s.data.map Char.toNat

/-- ASCII lowercase of one character code, the case folding the
case-insensitive Utility::endsWith performs. -/
def lowerCode (n : Nat) : Nat :=
  if 65 ≤ n ∧ n ≤ 90 then n + 32 else n

/-- Source filter inside autosaveClean: regular files whose name starts
with the autosave prefix and ends, case-insensitively, with the save
extension (suffix check as a prefix check on the reversed lowercased
codes). -/
def isAutosaveName (ext name : String) : Bool :=
  codesLeadWith (strCodes "autosave_") (strCodes name) &&
    codesLeadWith ((strCodes ext).map lowerCode).reverse
      (((strCodes name).map lowerCode).reverse)

/-- The autosave files collected by autosaveClean from the directory
entries. -/
def autosaveMatching (ext : String) (entries : List (String × Bool)) : List String :=
  (entries.filter fun e => e.2 && isAutosaveName ext e.1).map Prod.fst

/-- Source autosaveClean: keep max 1 of the configured autosaveAmount;
when more matching files exist, sort them by name ascending and delete
the excess oldest ones.  Returns the deleted names and the remaining
names. -/
def autosaveClean (ext : String) (autosaveAmount : Int) (entries : List (String × Bool)) :
    List String × List String :=
  let files := autosaveMatching ext entries
  let amountToKeep := (max 1 autosaveAmount).toNat
  if files.length > amountToKeep then
    let sorted := List.insertionSort (fun a b => a ≤ b) files
    let numToDelete := files.length - amountToKeep
    (sorted.take numToDelete, sorted.drop numToDelete)
  else ([], files)

/-! The timestep scheduler, source update and variableUpdate.  The
source computes on IEEE-754 doubles (and a float for the interpolation
factor).  Doubles are modelled exactly: a value is a dyadic rational
m times 2 to the e, and every C++ arithmetic operation is the exact
result followed by round to nearest, ties to even, at 53 bits of
significand (24 bits for the float conversion), which is IEEE-754
behaviour on the normal exponent range, the range every value in these
computations inhabits. -/

/-- A dyadic rational m times 2 to the e; the exact value of a binary
floating-point number.  The representation is not unique: dyEqv
compares values. -/
structure Dy where
  m : Int
  e : Int
deriving DecidableEq

/-- Bit length of a natural number, fuel-driven so that it reduces in
the kernel; bitLen n = k means 2 ^ (k - 1) ≤ n < 2 ^ k for positive n,
for every n below 2 ^ 256, which covers every number in this file. -/
def bitLenAux : Nat → Nat → Nat
  | 0, _ => 0
  | fuel + 1, n => if n = 0 then 0 else bitLenAux fuel (n / 2) + 1

/-- Bit length of a natural number. -/
def bitLen (n : Nat) : Nat :=
  bitLenAux 256 n

/-- The mantissa of a dyadic, rescaled from its own exponent down to a
common exponent e0 (valid when e0 is at most the exponent). -/
def dyShift (d : Dy) (e0 : Int) : Int :=
  d.m * ((2 ^ (d.e - e0).toNat : Nat) : Int)

/-- Value comparison of dyadics, the C++ less-or-equal. -/
def dyLe (a b : Dy) : Bool :=
  dyShift a (min a.e b.e) ≤ dyShift b (min a.e b.e)

/-- Value comparison of dyadics, the C++ strict less-than. -/
def dyLt (a b : Dy) : Bool :=
  dyShift a (min a.e b.e) < dyShift b (min a.e b.e)

/-- Value equality of dyadics (the representation is not unique). -/
def dyEqv (a b : Dy) : Bool :=
  dyShift a (min a.e b.e) = dyShift b (min a.e b.e)

/-- The C++ std::min on floating-point values. -/
def dyMin (a b : Dy) : Dy :=
  if dyLt b a then b else a

/-- Exact sum of two dyadics (no rounding yet). -/
def dyAddExact (a b : Dy) : Dy :=
  ⟨dyShift a (min a.e b.e) + dyShift b (min a.e b.e), min a.e b.e⟩

/-- Exact negation of a dyadic. -/
def dyNeg (a : Dy) : Dy :=
  ⟨-a.m, a.e⟩

/-- Round the nonnegative fraction n over d (d positive) to the nearest
integer, ties to even. -/
def roundHalfEvenNat (n d : Nat) : Nat :=
  let q := n / d
  let r := n % d
  if 2 * r < d then q
  else if d < 2 * r then q + 1
  else if q % 2 = 0 then q else q + 1

/-- Round the dyadic n times 2 to the e (n a natural) to at most prec
significand bits, returning the new mantissa and exponent. -/
def roundDyNat (prec : Nat) (n : Nat) (e : Int) : Nat × Int :=
  let l := bitLen n
  if l ≤ prec then (n, e)
  else
    let shift := l - prec
    (roundHalfEvenNat n (2 ^ shift), e + shift)

/-- Round a dyadic to the nearest floating-point value with prec
significand bits (53 for the C++ double, 24 for the C++ float), round
to nearest, ties to even. -/
def roundDy (prec : Nat) (d : Dy) : Dy :=
  let r := roundDyNat prec d.m.natAbs d.e
  if d.m < 0 then ⟨-(r.1 : Int), r.2⟩ else ⟨(r.1 : Int), r.2⟩

/-- Round the positive rational nN over dN to a prec-bit mantissa M and
an exponent E with M times 2 to the E the correctly rounded quotient:
locate the binade of the quotient, scale so the mantissa lands on prec
bits, and round the integer division with its remainder, ties to
even. -/
def divQuotNat (prec : Nat) (nN dN : Nat) : Nat × Int :=
  let la := bitLen nN
  let lb := bitLen dN
  let e0 : Int := (la : Int) - (lb : Int)
  let ge : Bool := if 0 ≤ e0 then dN * 2 ^ e0.toNat ≤ nN else dN ≤ nN * 2 ^ (-e0).toNat
  let e : Int := if ge then e0 else e0 - 1
  let k : Int := (prec : Int) - 1 - e
  let n2 : Nat := if 0 ≤ k then nN * 2 ^ k.toNat else nN
  let d2 : Nat := if 0 ≤ k then dN else dN * 2 ^ (-k).toNat
  (roundHalfEvenNat n2 d2, e - ((prec : Int) - 1))

/-- Double addition: exact sum, then one rounding at 53 bits. -/
def addD (a b : Dy) : Dy :=
  roundDy 53 (dyAddExact a b)

/-- Double subtraction: exact difference, then one rounding at 53
bits. -/
def subD (a b : Dy) : Dy :=
  roundDy 53 (dyAddExact a (dyNeg b))

/-- Double division: the correctly rounded quotient at 53 bits (the
divisor is never zero at the modelled call sites). -/
def divD (a b : Dy) : Dy :=
  if a.m = 0 then ⟨0, 0⟩
  else
    let s : Int := if (decide (a.m < 0)) = (decide (b.m < 0)) then 1 else -1
    let r := divQuotNat 53 a.m.natAbs b.m.natAbs
    ⟨s * (r.1 : Int), r.2 + a.e - b.e⟩

/-- The C++ double nearest to the rational num over den (both
positive): how the source obtains literals such as a tenth of a
second. -/
def ofRatD (num den : Nat) : Dy :=
  divD ⟨(num : Int), 0⟩ ⟨(den : Int), 0⟩

/-- Conversion of a double to a float, one rounding at 24 bits. -/
def toF (d : Dy) : Dy :=
  roundDy 24 d

/-- The scheduler state owned by the timestep scheduler: the time
accumulator (a double, in seconds) plus observables of one pass: how
many ticks ran, the last interpolation factor handed to the tweener,
and how many renders were issued. -/
structure SchedState where
  accumulator : Dy
  ticksRun : Nat
  lastAlpha : Option Dy
  renders : Nat
deriving DecidableEq

/-- The while loop of variableUpdate: while the accumulator exceeds the
update time, run one tick and subtract the update time (in double
arithmetic).  The fuel only bounds the iteration count so the model is
total; every theorem below instantiates it large enough that the loop
exits through its own condition, which the final accumulator being at
most the update time certifies.  Returns the tick count and the final
accumulator. -/
def varLoopD (updateTime : Dy) : Nat → Dy → Nat × Dy
  | 0, acc => (0, acc)
  | fuel + 1, acc =>
    if dyLt updateTime acc then
      let r := varLoopD updateTime fuel (subD acc updateTime)
      (r.1 + 1, r.2)
    else (0, acc)

/-- Source variableUpdate: compute the interpolation factor from the
accumulator as it stands before the tick loop (the double quotient
converted to float, clamped by std::min to at most one), run the tick
loop, hand the factor to the tweener, and render exactly once.
updateTime is Engine::UpdateRateInMs over 1000, kept as a parameter
because the Engine constants are outside the sample. -/
def variableUpdate (updateTime : Dy) (fuel : Nat) (s : SchedState) : SchedState :=
  let alpha := dyMin (toF (divD s.accumulator updateTime)) ⟨1, 0⟩
  let r := varLoopD updateTime fuel s.accumulator
  { accumulator := r.2,
    ticksRun := s.ticksRun + r.1,
    lastAlpha := some alpha,
    renders := s.renders + 1 }

/-- Source update, variable-step branch (uncapFPS set): add the elapsed
seconds to the accumulator in double arithmetic, clamp the result to
the maximum backlog, then run variableUpdate.  maxUpdateTime is
Engine::MaxTimeDeltaMs over 1000, kept as a parameter because the
Engine constants are outside the sample; the time-scale factor is the
constant one in the source and drops out. -/
def update (updateTime maxUpdateTime : Dy) (fuel : Nat) (elapsed : Dy) (s : SchedState) :
    SchedState :=
  variableUpdate updateTime fuel
    { s with accumulator := dyMin (addD s.accumulator elapsed) maxUpdateTime }

/-- The counter transition autosaveCheck performs on the cadence
counter: increment, and reset to zero when the autosave cycle
triggered. -/
def autosaveCounterNext (env : Env) (c : Int) : Int :=
  if env.isTitleMode = false ∧ env.autosaveFrequency > 0 ∧ c + 1 ≥ env.autosaveFrequency then 0
  else c + 1

/-- The error message box events, for stating that no message box was
opened. -/
def isMessageBoxEvent : Event → Bool
  | .errorOpen _ => true
  | _ => false

/-! Concrete environments and states used by the witnesses and
counterexamples below. -/

/-- A date constant for concrete environments. -/
def mkDate (y : Int) (m : Nat) (d : Nat) (doy : Nat) : Date :=
  ⟨y, m, d, doy⟩

/-- An environment whose network layer refuses every tick. -/
def envRefuse : Env :=
  ⟨fun _ => false, fun _ n => n, fun d => (false, d), fun _ => mkDate 1900 0 1 0,
   true, false, false, 0, true⟩

/-- An environment whose network layer accepts every tick and in which
no day boundary occurs. -/
def envAccept : Env :=
  ⟨fun _ => true, fun _ n => n, fun d => (false, d), fun _ => mkDate 1900 0 1 0,
   true, false, false, 0, true⟩

/-- An environment outside gameplay: the tile manager is not loaded. -/
def envNoTiles : Env :=
  ⟨fun _ => true, fun _ n => n, fun d => (true, d + 1), fun _ => mkDate 1900 0 1 0,
   false, false, false, 0, true⟩

/-- An environment in which every tick crosses a day boundary, the
month rolls from may to june of 1950 (the year does not change), and
the autosave frequency is zero so the autosave cycle can never
trigger. -/
def envMonthRoll : Env :=
  ⟨fun _ => true, fun _ n => n, fun _ => (true, 10),
   fun d => if d = 10 then mkDate 1950 5 1 151 else mkDate 1950 4 31 150,
   true, false, false, 0, true⟩

/-- An environment like envMonthRoll in which the month rolls from
december 2029 into january 2030. -/
def envYearRoll : Env :=
  ⟨fun _ => true, fun _ n => n, fun _ => (true, 10),
   fun d => if d = 10 then mkDate 2030 0 1 0 else mkDate 2029 11 31 364,
   true, false, false, 0, true⟩

/-- An environment like envMonthRoll in which the month rolls from
november to december of 2029. -/
def envDec2029 : Env :=
  ⟨fun _ => true, fun _ n => n, fun _ => (true, 10),
   fun d => if d = 10 then mkDate 2029 11 1 334 else mkDate 2029 10 30 333,
   true, false, false, 0, true⟩

/-- An environment whose autosave persistence step fails (the export
throws), with an autosave frequency of two months. -/
def envAutosaveFail : Env :=
  ⟨fun _ => true, fun _ n => n, fun d => (false, d), fun _ => mkDate 1900 0 1 0,
   true, false, false, 2, false⟩

/-- The initial game state used by witnesses. -/
def gs0 : GState :=
  ⟨0, 0, 0, 0, 0, 0, mkDate 1900 0 1 0, 0, 0, 0, 0, []⟩

/-- A game state whose autosave cadence counter stands at seven. -/
def gsMonths7 : GState :=
  { gs0 with monthsSinceLastAutosave := 7 }

/-- A game state whose autosave cadence counter stands at one. -/
def gsMonths1 : GState :=
  { gs0 with monthsSinceLastAutosave := 1 }

/-- A game state carrying the pending load-error code minus one with
message 42. -/
def gsErrNeg1 : GState :=
  { gs0 with loadErrorCode := -1, loadErrorMessage := 42 }

/-- Concrete tick inputs for the catch-up witness: the server tick is
far ahead of the local scenario tick. -/
def inpC3 : TickInputs :=
  ⟨500, false, false, false, .normal, false, false, .extraFastForward, 100⟩

/-- A directory listing holding one autosave file. -/
def entriesOne : List (String × Bool) :=
  [("autosave_2024-01-01_00-00-00.sv5", true)]

/-- A directory listing holding three autosave files (listed out of
name order), one unrelated file and one non-regular entry. -/
def entriesThree : List (String × Bool) :=
  [("autosave_2024-03-01_00-00-00.sv5", true),
   ("autosave_2024-01-01_00-00-00.sv5", true),
   ("readme.txt", true),
   ("autosave_2024-02-01_00-00-00.sv5", true),
   ("autosave_2023-12-31_00-00-00.sv5", false)]

/-- The scheduler state at the start of the end-to-end scenario:
accumulator zero, nothing run yet. -/
def sched0 : SchedState :=
  ⟨⟨0, 0⟩, 0, none, 0⟩

/-- A scheduler state whose accumulator holds the double nearest one
twentieth of a second. -/
def schedC9 : SchedState :=
  ⟨ofRatD 1 20, 0, none, 0⟩

/-! Helper lemmas: which fields each piece of the pipeline can touch,
and which events it can emit. -/

@[simp]
theorem callExt_scenarioTicks (env : Env) (e : Event) (s : GState) :
    (callExt env e s).scenarioTicks = s.scenarioTicks := rfl

@[simp]
theorem callExt_scenarioTicks2 (env : Env) (e : Event) (s : GState) :
    (callExt env e s).scenarioTicks2 = s.scenarioTicks2 := rfl

@[simp]
theorem callExt_loadErrorCode (env : Env) (e : Event) (s : GState) :
    (callExt env e s).loadErrorCode = s.loadErrorCode := rfl

@[simp]
theorem callExt_loadErrorMessage (env : Env) (e : Event) (s : GState) :
    (callExt env e s).loadErrorMessage = s.loadErrorMessage := rfl

@[simp]
theorem callExt_monthsSinceLastAutosave (env : Env) (e : Event) (s : GState) :
    (callExt env e s).monthsSinceLastAutosave = s.monthsSinceLastAutosave := rfl

@[simp]
theorem callExt_currentDay (env : Env) (e : Event) (s : GState) :
    (callExt env e s).currentDay = s.currentDay := rfl

@[simp]
theorem callExt_events (env : Env) (e : Event) (s : GState) :
    (callExt env e s).events = s.events ++ [e] := rfl

theorem autosaveCheck_scenarioTicks (env : Env) (s : GState) :
    (autosaveCheck env s).scenarioTicks = s.scenarioTicks := by
  unfold autosaveCheck autosaveReset autosave callExt
  dsimp only
  split_ifs <;> rfl

theorem autosaveCheck_scenarioTicks2 (env : Env) (s : GState) :
    (autosaveCheck env s).scenarioTicks2 = s.scenarioTicks2 := by
  unfold autosaveCheck autosaveReset autosave callExt
  dsimp only
  split_ifs <;> rfl

theorem autosaveCheck_loadErrorCode (env : Env) (s : GState) :
    (autosaveCheck env s).loadErrorCode = s.loadErrorCode := by
  unfold autosaveCheck autosaveReset autosave callExt
  dsimp only
  split_ifs <;> rfl

theorem autosaveCheck_loadErrorMessage (env : Env) (s : GState) :
    (autosaveCheck env s).loadErrorMessage = s.loadErrorMessage := by
  unfold autosaveCheck autosaveReset autosave callExt
  dsimp only
  split_ifs <;> rfl

theorem autosaveCheck_months (env : Env) (s : GState) :
    (autosaveCheck env s).monthsSinceLastAutosave =
      autosaveCounterNext env s.monthsSinceLastAutosave := by
  unfold autosaveCheck autosaveCounterNext autosaveReset autosave callExt
  dsimp only
  split_ifs with h1 h2 h3 <;> simp_all

theorem autosaveCheck_mem_econ (env : Env) (s : GState) :
    (Event.economyMonthly ∈ (autosaveCheck env s).events ↔ Event.economyMonthly ∈ s.events) := by
  unfold autosaveCheck autosaveReset autosave callExt
  dsimp only
  split_ifs <;> simp

theorem autosaveCheck_mem_errorOpen (env : Env) (s : GState) (t0 : Nat) :
    (Event.errorOpen t0 ∈ (autosaveCheck env s).events ↔ Event.errorOpen t0 ∈ s.events) := by
  unfold autosaveCheck autosaveReset autosave callExt
  dsimp only
  split_ifs <;> simp

theorem autosaveCheck_mem_objErr (env : Env) (s : GState) :
    (Event.objectLoadErrorOpen ∈ (autosaveCheck env s).events ↔
      Event.objectLoadErrorOpen ∈ s.events) := by
  unfold autosaveCheck autosaveReset autosave callExt
  dsimp only
  split_ifs <;> simp

theorem econUpdateStage_fields (env : Env) (t : Date) (s : GState) :
    (econUpdateStage env t s).scenarioTicks = s.scenarioTicks ∧
    (econUpdateStage env t s).scenarioTicks2 = s.scenarioTicks2 ∧
    (econUpdateStage env t s).loadErrorCode = s.loadErrorCode ∧
    (econUpdateStage env t s).loadErrorMessage = s.loadErrorMessage ∧
    (econUpdateStage env t s).monthsSinceLastAutosave = s.monthsSinceLastAutosave := by
  unfold econUpdateStage
  split_ifs <;> simp [callExt]

theorem quarterlyStage_fields (env : Env) (t : Date) (s : GState) :
    (quarterlyStage env t s).scenarioTicks = s.scenarioTicks ∧
    (quarterlyStage env t s).scenarioTicks2 = s.scenarioTicks2 ∧
    (quarterlyStage env t s).loadErrorCode = s.loadErrorCode ∧
    (quarterlyStage env t s).loadErrorMessage = s.loadErrorMessage ∧
    (quarterlyStage env t s).monthsSinceLastAutosave = s.monthsSinceLastAutosave := by
  unfold quarterlyStage
  split_ifs <;> simp [callExt]

theorem yearlyStage_fields (env : Env) (t y : Date) (s : GState) :
    (yearlyStage env t y s).scenarioTicks = s.scenarioTicks ∧
    (yearlyStage env t y s).scenarioTicks2 = s.scenarioTicks2 ∧
    (yearlyStage env t y s).loadErrorCode = s.loadErrorCode ∧
    (yearlyStage env t y s).loadErrorMessage = s.loadErrorMessage ∧
    (yearlyStage env t y s).monthsSinceLastAutosave = s.monthsSinceLastAutosave := by
  unfold yearlyStage
  split_ifs <;> simp [callExt]

theorem econUpdateStage_mem_econ (env : Env) (t : Date) (s : GState) :
    (Event.economyMonthly ∈ (econUpdateStage env t s).events ↔
      (Event.economyMonthly ∈ s.events ∨ t.year ≤ 2029)) := by
  unfold econUpdateStage
  split_ifs with h <;> simp [callExt, h]

theorem quarterlyStage_mem_econ (env : Env) (t : Date) (s : GState) :
    (Event.economyMonthly ∈ (quarterlyStage env t s).events ↔
      Event.economyMonthly ∈ s.events) := by
  unfold quarterlyStage
  split_ifs <;> simp [callExt]

theorem yearlyStage_mem_econ (env : Env) (t y : Date) (s : GState) :
    (Event.economyMonthly ∈ (yearlyStage env t y s).events ↔
      Event.economyMonthly ∈ s.events) := by
  unfold yearlyStage
  split_ifs <;> simp [callExt]

theorem econUpdateStage_mem_errorOpen (env : Env) (t : Date) (s : GState) (t0 : Nat) :
    (Event.errorOpen t0 ∈ (econUpdateStage env t s).events ↔
      Event.errorOpen t0 ∈ s.events) := by
  unfold econUpdateStage
  split_ifs <;> simp [callExt]

theorem quarterlyStage_mem_errorOpen (env : Env) (t : Date) (s : GState) (t0 : Nat) :
    (Event.errorOpen t0 ∈ (quarterlyStage env t s).events ↔
      Event.errorOpen t0 ∈ s.events) := by
  unfold quarterlyStage
  split_ifs <;> simp [callExt]

theorem yearlyStage_mem_errorOpen (env : Env) (t y : Date) (s : GState) (t0 : Nat) :
    (Event.errorOpen t0 ∈ (yearlyStage env t y s).events ↔
      Event.errorOpen t0 ∈ s.events) := by
  unfold yearlyStage
  split_ifs <;> simp [callExt]

theorem econUpdateStage_mem_objErr (env : Env) (t : Date) (s : GState) :
    (Event.objectLoadErrorOpen ∈ (econUpdateStage env t s).events ↔
      Event.objectLoadErrorOpen ∈ s.events) := by
  unfold econUpdateStage
  split_ifs <;> simp [callExt]

theorem quarterlyStage_mem_objErr (env : Env) (t : Date) (s : GState) :
    (Event.objectLoadErrorOpen ∈ (quarterlyStage env t s).events ↔
      Event.objectLoadErrorOpen ∈ s.events) := by
  unfold quarterlyStage
  split_ifs <;> simp [callExt]

theorem yearlyStage_mem_objErr (env : Env) (t y : Date) (s : GState) :
    (Event.objectLoadErrorOpen ∈ (yearlyStage env t y s).events ↔
      Event.objectLoadErrorOpen ∈ s.events) := by
  unfold yearlyStage
  split_ifs <;> simp [callExt]

theorem dateTickMonthly_scenarioTicks (env : Env) (t y : Date) (s : GState) :
    (dateTickMonthly env t y s).scenarioTicks = s.scenarioTicks := by
  unfold dateTickMonthly
  rw [autosaveCheck_scenarioTicks, (yearlyStage_fields env t y _).1,
    (quarterlyStage_fields env t _).1, (econUpdateStage_fields env t _).1]
  rfl

theorem dateTickMonthly_scenarioTicks2 (env : Env) (t y : Date) (s : GState) :
    (dateTickMonthly env t y s).scenarioTicks2 = s.scenarioTicks2 := by
  unfold dateTickMonthly
  rw [autosaveCheck_scenarioTicks2, (yearlyStage_fields env t y _).2.1,
    (quarterlyStage_fields env t _).2.1, (econUpdateStage_fields env t _).2.1]
  rfl

theorem dateTickMonthly_loadErrorCode (env : Env) (t y : Date) (s : GState) :
    (dateTickMonthly env t y s).loadErrorCode = s.loadErrorCode := by
  unfold dateTickMonthly
  rw [autosaveCheck_loadErrorCode, (yearlyStage_fields env t y _).2.2.1,
    (quarterlyStage_fields env t _).2.2.1, (econUpdateStage_fields env t _).2.2.1]
  rfl

theorem dateTickMonthly_loadErrorMessage (env : Env) (t y : Date) (s : GState) :
    (dateTickMonthly env t y s).loadErrorMessage = s.loadErrorMessage := by
  unfold dateTickMonthly
  rw [autosaveCheck_loadErrorMessage, (yearlyStage_fields env t y _).2.2.2.1,
    (quarterlyStage_fields env t _).2.2.2.1, (econUpdateStage_fields env t _).2.2.2.1]
  rfl

theorem dateTickMonthly_months (env : Env) (t y : Date) (s : GState) :
    (dateTickMonthly env t y s).monthsSinceLastAutosave =
      autosaveCounterNext env s.monthsSinceLastAutosave := by
  unfold dateTickMonthly
  rw [autosaveCheck_months, (yearlyStage_fields env t y _).2.2.2.2,
    (quarterlyStage_fields env t _).2.2.2.2, (econUpdateStage_fields env t _).2.2.2.2]
  rfl

theorem dateTickMonthly_mem_econ (env : Env) (t y : Date) (s : GState) :
    (Event.economyMonthly ∈ (dateTickMonthly env t y s).events ↔
      (Event.economyMonthly ∈ s.events ∨ t.year ≤ 2029)) := by
  unfold dateTickMonthly
  rw [autosaveCheck_mem_econ, yearlyStage_mem_econ, quarterlyStage_mem_econ,
    econUpdateStage_mem_econ]
  simp [callExt]

theorem dateTickMonthly_mem_errorOpen (env : Env) (t y : Date) (s : GState) (t0 : Nat) :
    (Event.errorOpen t0 ∈ (dateTickMonthly env t y s).events ↔
      Event.errorOpen t0 ∈ s.events) := by
  unfold dateTickMonthly
  rw [autosaveCheck_mem_errorOpen, yearlyStage_mem_errorOpen, quarterlyStage_mem_errorOpen,
    econUpdateStage_mem_errorOpen]
  simp [callExt]

theorem dateTickMonthly_mem_objErr (env : Env) (t y : Date) (s : GState) :
    (Event.objectLoadErrorOpen ∈ (dateTickMonthly env t y s).events ↔
      Event.objectLoadErrorOpen ∈ s.events) := by
  unfold dateTickMonthly
  rw [autosaveCheck_mem_objErr, yearlyStage_mem_objErr, quarterlyStage_mem_objErr,
    econUpdateStage_mem_objErr]
  simp [callExt]

theorem monthlyStage_scenarioTicks (env : Env) (t y : Date) (s : GState) :
    (monthlyStage env t y s).scenarioTicks = s.scenarioTicks := by
  unfold monthlyStage
  split_ifs <;> simp [dateTickMonthly_scenarioTicks]

theorem monthlyStage_scenarioTicks2 (env : Env) (t y : Date) (s : GState) :
    (monthlyStage env t y s).scenarioTicks2 = s.scenarioTicks2 := by
  unfold monthlyStage
  split_ifs <;> simp [dateTickMonthly_scenarioTicks2]

theorem monthlyStage_loadErrorCode (env : Env) (t y : Date) (s : GState) :
    (monthlyStage env t y s).loadErrorCode = s.loadErrorCode := by
  unfold monthlyStage
  split_ifs <;> simp [dateTickMonthly_loadErrorCode]

theorem monthlyStage_loadErrorMessage (env : Env) (t y : Date) (s : GState) :
    (monthlyStage env t y s).loadErrorMessage = s.loadErrorMessage := by
  unfold monthlyStage
  split_ifs <;> simp [dateTickMonthly_loadErrorMessage]

theorem monthlyStage_mem_errorOpen (env : Env) (t y : Date) (s : GState) (t0 : Nat) :
    (Event.errorOpen t0 ∈ (monthlyStage env t y s).events ↔
      Event.errorOpen t0 ∈ s.events) := by
  unfold monthlyStage
  split_ifs <;> simp [dateTickMonthly_mem_errorOpen]

theorem monthlyStage_mem_objErr (env : Env) (t y : Date) (s : GState) :
    (Event.objectLoadErrorOpen ∈ (monthlyStage env t y s).events ↔
      Event.objectLoadErrorOpen ∈ s.events) := by
  unfold monthlyStage
  split_ifs <;> simp [dateTickMonthly_mem_objErr]

theorem setDate_scenarioTicks (d : Date) (s : GState) :
    (setDate d s).scenarioTicks = s.scenarioTicks := rfl

theorem setDate_scenarioTicks2 (d : Date) (s : GState) :
    (setDate d s).scenarioTicks2 = s.scenarioTicks2 := rfl

theorem setDate_loadErrorCode (d : Date) (s : GState) :
    (setDate d s).loadErrorCode = s.loadErrorCode := rfl

theorem setDate_loadErrorMessage (d : Date) (s : GState) :
    (setDate d s).loadErrorMessage = s.loadErrorMessage := rfl

theorem setDate_events (d : Date) (s : GState) :
    (setDate d s).events = s.events := rfl

theorem dateTickDaily_scenarioTicks (env : Env) (s : GState) :
    (dateTickDaily env s).scenarioTicks = s.scenarioTicks := by
  simp only [dateTickDaily, callExt_scenarioTicks, monthlyStage_scenarioTicks,
    setDate_scenarioTicks]

theorem dateTickDaily_scenarioTicks2 (env : Env) (s : GState) :
    (dateTickDaily env s).scenarioTicks2 = s.scenarioTicks2 := by
  simp only [dateTickDaily, callExt_scenarioTicks2, monthlyStage_scenarioTicks2,
    setDate_scenarioTicks2]

theorem dateTickDaily_loadErrorCode (env : Env) (s : GState) :
    (dateTickDaily env s).loadErrorCode = s.loadErrorCode := by
  simp only [dateTickDaily, callExt_loadErrorCode, monthlyStage_loadErrorCode,
    setDate_loadErrorCode]

theorem dateTickDaily_loadErrorMessage (env : Env) (s : GState) :
    (dateTickDaily env s).loadErrorMessage = s.loadErrorMessage := by
  simp only [dateTickDaily, callExt_loadErrorMessage, monthlyStage_loadErrorMessage,
    setDate_loadErrorMessage]

theorem dateTickDaily_mem_errorOpen (env : Env) (s : GState) (t0 : Nat) :
    (Event.errorOpen t0 ∈ (dateTickDaily env s).events ↔
      Event.errorOpen t0 ∈ s.events) := by
  simp only [dateTickDaily, callExt_events, setDate_events, monthlyStage_mem_errorOpen,
    List.mem_append, List.mem_singleton]
  simp

theorem dateTickDaily_mem_objErr (env : Env) (s : GState) :
    (Event.objectLoadErrorOpen ∈ (dateTickDaily env s).events ↔
      Event.objectLoadErrorOpen ∈ s.events) := by
  simp only [dateTickDaily, callExt_events, setDate_events, monthlyStage_mem_objErr,
    List.mem_append, List.mem_singleton]
  simp

theorem dateTick_scenarioTicks (env : Env) (s : GState) :
    (dateTick env s).scenarioTicks = s.scenarioTicks := by
  unfold dateTick
  dsimp only
  split_ifs <;> simp [dateTickDaily_scenarioTicks]

theorem dateTick_scenarioTicks2 (env : Env) (s : GState) :
    (dateTick env s).scenarioTicks2 = s.scenarioTicks2 := by
  unfold dateTick
  dsimp only
  split_ifs <;> simp [dateTickDaily_scenarioTicks2]

theorem dateTick_loadErrorCode (env : Env) (s : GState) :
    (dateTick env s).loadErrorCode = s.loadErrorCode := by
  unfold dateTick
  dsimp only
  split_ifs <;> simp [dateTickDaily_loadErrorCode]

theorem dateTick_loadErrorMessage (env : Env) (s : GState) :
    (dateTick env s).loadErrorMessage = s.loadErrorMessage := by
  unfold dateTick
  dsimp only
  split_ifs <;> simp [dateTickDaily_loadErrorMessage]

theorem dateTick_mem_errorOpen (env : Env) (s : GState) (t0 : Nat) :
    (Event.errorOpen t0 ∈ (dateTick env s).events ↔
      Event.errorOpen t0 ∈ s.events) := by
  unfold dateTick
  dsimp only
  split_ifs <;> simp [dateTickDaily_mem_errorOpen]

theorem dateTick_mem_objErr (env : Env) (s : GState) :
    (Event.objectLoadErrorOpen ∈ (dateTick env s).events ↔
      Event.objectLoadErrorOpen ∈ s.events) := by
  unfold dateTick
  dsimp only
  split_ifs <;> simp [dateTickDaily_mem_objErr]

theorem incrementTicks_scenarioTicks (s : GState) :
    (incrementTicks s).scenarioTicks = (s.scenarioTicks + 1) % 4294967296 := rfl

theorem incrementTicks_scenarioTicks2 (s : GState) :
    (incrementTicks s).scenarioTicks2 = (s.scenarioTicks2 + 1) % 4294967296 := rfl

theorem incrementTicks_loadErrorCode (s : GState) :
    (incrementTicks s).loadErrorCode = s.loadErrorCode := rfl

theorem incrementTicks_loadErrorMessage (s : GState) :
    (incrementTicks s).loadErrorMessage = s.loadErrorMessage := rfl

theorem incrementTicks_events (s : GState) :
    (incrementTicks s).events = s.events := rfl

theorem saveChangesFlag_scenarioTicks (s : GState) :
    (saveChangesFlag s).scenarioTicks = s.scenarioTicks := rfl

theorem saveChangesFlag_scenarioTicks2 (s : GState) :
    (saveChangesFlag s).scenarioTicks2 = s.scenarioTicks2 := rfl

theorem saveChangesFlag_loadErrorCode (s : GState) :
    (saveChangesFlag s).loadErrorCode = s.loadErrorCode := rfl

theorem saveChangesFlag_loadErrorMessage (s : GState) :
    (saveChangesFlag s).loadErrorMessage = s.loadErrorMessage := rfl

theorem saveChangesFlag_events (s : GState) :
    (saveChangesFlag s).events = s.events := rfl

theorem restoreChangesFlag_scenarioTicks (s : GState) :
    (restoreChangesFlag s).scenarioTicks = s.scenarioTicks := rfl

theorem restoreChangesFlag_scenarioTicks2 (s : GState) :
    (restoreChangesFlag s).scenarioTicks2 = s.scenarioTicks2 := rfl

theorem restoreChangesFlag_loadErrorCode (s : GState) :
    (restoreChangesFlag s).loadErrorCode = s.loadErrorCode := rfl

theorem restoreChangesFlag_loadErrorMessage (s : GState) :
    (restoreChangesFlag s).loadErrorMessage = s.loadErrorMessage := rfl

theorem restoreChangesFlag_events (s : GState) :
    (restoreChangesFlag s).events = s.events := rfl

theorem loadErrorStage_scenarioTicks (env : Env) (s : GState) :
    (loadErrorStage env s).scenarioTicks = s.scenarioTicks := by
  unfold loadErrorStage
  split_ifs <;> rfl

theorem loadErrorStage_scenarioTicks2 (env : Env) (s : GState) :
    (loadErrorStage env s).scenarioTicks2 = s.scenarioTicks2 := by
  unfold loadErrorStage
  split_ifs <;> rfl

theorem loadErrorStage_loadErrorCode (env : Env) (s : GState) :
    (loadErrorStage env s).loadErrorCode = 0 ∨
      ((loadErrorStage env s).loadErrorCode = s.loadErrorCode ∧ s.loadErrorCode = 0) := by
  unfold loadErrorStage
  split_ifs with h <;> simp_all

theorem loadErrorStage_mem_errorOpen (env : Env) (s : GState) (t0 : Nat) :
    (Event.errorOpen t0 ∈ (loadErrorStage env s).events ↔
      (Event.errorOpen t0 ∈ s.events ∨
        (s.loadErrorCode = -2 ∧ t0 = s.loadErrorMessage))) := by
  unfold loadErrorStage
  split_ifs with h1 h2 <;> simp_all [callExt]

theorem loadErrorStage_mem_objErr (env : Env) (s : GState) :
    (Event.objectLoadErrorOpen ∈ (loadErrorStage env s).events ↔
      (Event.objectLoadErrorOpen ∈ s.events ∨
        (s.loadErrorCode ≠ 0 ∧ s.loadErrorCode ≠ -2))) := by
  unfold loadErrorStage
  split_ifs with h1 h2 <;> simp_all [callExt]

theorem tickUpdatersChain_scenarioTicks (env : Env) (s : GState) :
    (tickUpdatersChain env s).scenarioTicks = (s.scenarioTicks + 1) % 4294967296 := by
  simp only [tickUpdatersChain, restoreChangesFlag_scenarioTicks, callExt_scenarioTicks,
    dateTick_scenarioTicks, saveChangesFlag_scenarioTicks, incrementTicks_scenarioTicks]

theorem tickUpdatersChain_scenarioTicks2 (env : Env) (s : GState) :
    (tickUpdatersChain env s).scenarioTicks2 = (s.scenarioTicks2 + 1) % 4294967296 := by
  simp only [tickUpdatersChain, restoreChangesFlag_scenarioTicks2, callExt_scenarioTicks2,
    dateTick_scenarioTicks2, saveChangesFlag_scenarioTicks2, incrementTicks_scenarioTicks2]

theorem tickUpdatersChain_loadErrorCode (env : Env) (s : GState) :
    (tickUpdatersChain env s).loadErrorCode = s.loadErrorCode := by
  simp only [tickUpdatersChain, restoreChangesFlag_loadErrorCode, callExt_loadErrorCode,
    dateTick_loadErrorCode, saveChangesFlag_loadErrorCode, incrementTicks_loadErrorCode]

theorem tickUpdatersChain_loadErrorMessage (env : Env) (s : GState) :
    (tickUpdatersChain env s).loadErrorMessage = s.loadErrorMessage := by
  simp only [tickUpdatersChain, restoreChangesFlag_loadErrorMessage, callExt_loadErrorMessage,
    dateTick_loadErrorMessage, saveChangesFlag_loadErrorMessage, incrementTicks_loadErrorMessage]

theorem tickUpdatersChain_mem_errorOpen (env : Env) (s : GState) (t0 : Nat) :
    (Event.errorOpen t0 ∈ (tickUpdatersChain env s).events ↔
      Event.errorOpen t0 ∈ s.events) := by
  simp only [tickUpdatersChain, restoreChangesFlag_events, callExt_events,
    saveChangesFlag_events, incrementTicks_events, List.mem_append, List.mem_singleton,
    dateTick_mem_errorOpen]
  simp

theorem tickUpdatersChain_mem_objErr (env : Env) (s : GState) :
    (Event.objectLoadErrorOpen ∈ (tickUpdatersChain env s).events ↔
      Event.objectLoadErrorOpen ∈ s.events) := by
  simp only [tickUpdatersChain, restoreChangesFlag_events, callExt_events,
    saveChangesFlag_events, incrementTicks_events, List.mem_append, List.mem_singleton,
    dateTick_mem_objErr]
  simp

theorem tickLogicBody_scenarioTicks (env : Env) (s : GState) :
    (tickLogicBody env s).scenarioTicks = (s.scenarioTicks + 1) % 4294967296 := by
  rw [tickLogicBody, loadErrorStage_scenarioTicks, tickUpdatersChain_scenarioTicks]

theorem tickLogicBody_scenarioTicks2 (env : Env) (s : GState) :
    (tickLogicBody env s).scenarioTicks2 = (s.scenarioTicks2 + 1) % 4294967296 := by
  rw [tickLogicBody, loadErrorStage_scenarioTicks2, tickUpdatersChain_scenarioTicks2]

theorem tickLogicBody_loadErrorCode (env : Env) (s : GState) :
    (tickLogicBody env s).loadErrorCode = 0 ∨
      ((tickLogicBody env s).loadErrorCode = s.loadErrorCode ∧ s.loadErrorCode = 0) := by
  have h := loadErrorStage_loadErrorCode env (tickUpdatersChain env s)
  rw [tickUpdatersChain_loadErrorCode] at h
  exact h

theorem tickLogicBody_mem_errorOpen (env : Env) (s : GState) (t0 : Nat) :
    (Event.errorOpen t0 ∈ (tickLogicBody env s).events ↔
      (Event.errorOpen t0 ∈ s.events ∨
        (s.loadErrorCode = -2 ∧ t0 = s.loadErrorMessage))) := by
  rw [tickLogicBody, loadErrorStage_mem_errorOpen, tickUpdatersChain_mem_errorOpen,
    tickUpdatersChain_loadErrorCode, tickUpdatersChain_loadErrorMessage]

theorem tickLogicBody_mem_objErr (env : Env) (s : GState) :
    (Event.objectLoadErrorOpen ∈ (tickLogicBody env s).events ↔
      (Event.objectLoadErrorOpen ∈ s.events ∨
        (s.loadErrorCode ≠ 0 ∧ s.loadErrorCode ≠ -2))) := by
  rw [tickLogicBody, loadErrorStage_mem_objErr, tickUpdatersChain_mem_objErr,
    tickUpdatersChain_loadErrorCode]

theorem monthlyStage_months (env : Env) (t y : Date) (s : GState) :
    (monthlyStage env t y s).monthsSinceLastAutosave =
      (if t.month ≠ y.month then autosaveCounterNext env s.monthsSinceLastAutosave
       else s.monthsSinceLastAutosave) := by
  unfold monthlyStage
  split_ifs <;> simp [dateTickMonthly_months]

theorem setDate_months (d : Date) (s : GState) :
    (setDate d s).monthsSinceLastAutosave = s.monthsSinceLastAutosave := rfl

theorem dateTickDaily_months_changed (env : Env) (s : GState)
    (hm : (env.calcDate s.currentDay).month ≠
        (env.calcDate ((s.currentDay + 4294967295) % 4294967296)).month) :
    (dateTickDaily env s).monthsSinceLastAutosave =
      autosaveCounterNext env s.monthsSinceLastAutosave := by
  unfold dateTickDaily
  dsimp only
  rw [callExt_monthsSinceLastAutosave]
  unfold monthlyStage
  simp only [callExt_currentDay]
  rw [if_pos hm, dateTickMonthly_months]
  simp only [callExt_monthsSinceLastAutosave, setDate_months]

theorem dateTickDaily_months_same (env : Env) (s : GState)
    (hm : (env.calcDate s.currentDay).month =
        (env.calcDate ((s.currentDay + 4294967295) % 4294967296)).month) :
    (dateTickDaily env s).monthsSinceLastAutosave = s.monthsSinceLastAutosave := by
  unfold dateTickDaily
  dsimp only
  rw [callExt_monthsSinceLastAutosave]
  unfold monthlyStage
  simp only [callExt_currentDay]
  rw [if_neg (by simpa using hm)]
  simp only [callExt_monthsSinceLastAutosave, setDate_months]

theorem monthlyStage_mem_econ (env : Env) (t y : Date) (s : GState) :
    (Event.economyMonthly ∈ (monthlyStage env t y s).events ↔
      (Event.economyMonthly ∈ s.events ∨ (t.month ≠ y.month ∧ t.year ≤ 2029))) := by
  unfold monthlyStage
  split_ifs with h <;> simp [dateTickMonthly_mem_econ, h]

theorem dateTickDaily_mem_econ (env : Env) (s : GState) :
    (Event.economyMonthly ∈ (dateTickDaily env s).events ↔
      (Event.economyMonthly ∈ s.events ∨
        ((env.calcDate s.currentDay).month ≠
            (env.calcDate ((s.currentDay + 4294967295) % 4294967296)).month ∧
          (env.calcDate s.currentDay).year ≤ 2029))) := by
  simp only [dateTickDaily, callExt_events, setDate_events, callExt_currentDay,
    monthlyStage_mem_econ, List.mem_append, List.mem_singleton]
  simp

/-! The claims. -/

/-- Claim C1: for every call to the tick-logic step, if
shouldProcessTick(ScenarioTickCounter + 1) returns false the call
returns immediately with the state untouched (no counter change, no
command application, no subsystem updater, no event at all); if it
returns true, ScenarioTickCounter and the secondary ticks2 counter are
each incremented exactly once (uint32 arithmetic). -/
theorem C1_network_gate (env : Env) (s : GState) :
    (env.shouldProcessTick ((s.scenarioTicks + 1) % 4294967296) = false →
      tickLogic env s = s) ∧
    (env.shouldProcessTick ((s.scenarioTicks + 1) % 4294967296) = true →
      (tickLogic env s).scenarioTicks = (s.scenarioTicks + 1) % 4294967296 ∧
      (tickLogic env s).scenarioTicks2 = (s.scenarioTicks2 + 1) % 4294967296) := by
  constructor
  · intro h
    unfold tickLogic
    rw [if_neg (by simp [h])]
  · intro h
    unfold tickLogic
    rw [if_pos h]
    exact ⟨tickLogicBody_scenarioTicks env s, tickLogicBody_scenarioTicks2 env s⟩

/-- Witness for C1 at a concrete refused and a concrete accepted
tick. -/
theorem C1_network_gate_witness :
    tickLogic envRefuse gs0 = gs0 ∧
    (tickLogic envAccept gs0).scenarioTicks = (gs0.scenarioTicks + 1) % 4294967296 :=
  ⟨(C1_network_gate envRefuse gs0).1 rfl, ((C1_network_gate envAccept gs0).2 rfl).1⟩

/-- Claim C2: in variable-step mode, starting from accumulator zero
with a fixed step of one thirtieth of a second, one scheduler pass fed
an elapsed duration of a tenth of a second executes exactly three ticks
and leaves the accumulator approximately 0.1 - 3/30 = 0 (the exact
residue of the three double subtractions is 2 to the power -56, about
1.4e-17, far below one billionth); the loop exits through its own
condition since the residue is at most the update time. -/
theorem C2_three_ticks_scenario :
    (update (ofRatD 1 30) (ofRatD 1 2) 32 (ofRatD 1 10) sched0).ticksRun = 3 ∧
    dyEqv (update (ofRatD 1 30) (ofRatD 1 2) 32 (ofRatD 1 10) sched0).accumulator
        ⟨1, -56⟩ = true ∧
    dyLt (update (ofRatD 1 30) (ofRatD 1 2) 32 (ofRatD 1 10) sched0).accumulator
        ⟨1, -30⟩ = true ∧
    dyLe (update (ofRatD 1 30) (ofRatD 1 2) 32 (ofRatD 1 10) sched0).accumulator
        (ofRatD 1 30) = true := by
  decide

/-- Claim C3: whenever the server is more than four ticks ahead of the
local scenario tick (uint32 subtraction), the pass invokes tickLogic
exactly four times, whatever the otherwise-computed update count would
have been. -/
theorem C3_catchup_cap (env : Env) (inp : TickInputs) (s : GState)
    (h : numTicksBehind inp.serverTick s.scenarioTicks > 4) :
    computeNumUpdates inp s.scenarioTicks = 4 ∧
    tick env inp s = tickLogicIter env 4 s := by
  have h4 : computeNumUpdates inp s.scenarioTicks = 4 := by
    unfold computeNumUpdates
    simp [h]
  refine ⟨h4, ?_⟩
  unfold tick tickLogicCount
  rw [h4]
  rfl

/-- Witness for C3: the server a hundred ticks ahead caps the pass at
four tickLogic invocations. -/
theorem C3_catchup_cap_witness :
    numTicksBehind inpC3.serverTick gs0.scenarioTicks > 4 ∧
    computeNumUpdates inpC3 gs0.scenarioTicks = 4 :=
  ⟨by decide, (C3_catchup_cap envAccept inpC3 gs0 (by decide)).1⟩

/-- Claim C4, amended: when the triggered autosave persistence step
fails, the months-since-last-autosave counter is still reset to zero
(the reset follows every triggered attempt, successful or not), so the
next attempt happens only after a further full autosaveFrequency
months, not at the next elapsed month. -/
theorem C4_amended_reset_on_failure (env : Env) (s : GState)
    (h1 : env.isTitleMode = false) (h2 : env.autosaveFrequency > 0)
    (h3 : s.monthsSinceLastAutosave + 1 ≥ env.autosaveFrequency) :
    (autosaveCheck env s).monthsSinceLastAutosave = 0 ∧
    Event.autosaveExport env.saveSucceeds ∈ (autosaveCheck env s).events := by
  unfold autosaveCheck autosaveReset autosave callExt
  dsimp only
  rw [if_pos h1, if_pos ⟨h2, h3⟩]
  simp

/-- Witness for C4 amended: a failing export still resets the
counter. -/
theorem C4_amended_reset_on_failure_witness :
    (autosaveCheck envAutosaveFail gsMonths1).monthsSinceLastAutosave = 0 ∧
    Event.autosaveExport false ∈ (autosaveCheck envAutosaveFail gsMonths1).events :=
  C4_amended_reset_on_failure envAutosaveFail gsMonths1 rfl (by decide) (by decide)

/-- Counterexample for C4 as stated: with frequency two and the counter
at one, the triggered autosave fails (the export event carries false)
yet the counter is reset to zero, and the next elapsed month performs
no new attempt (no further events) — the claim promised the counter
would not be reset so that the next month reaching the frequency
retries. -/
theorem C4_counterexample :
    (autosaveCheck envAutosaveFail gsMonths1).events =
        [Event.autosaveExport false, Event.autosaveCleanRun] ∧
    (autosaveCheck envAutosaveFail gsMonths1).monthsSinceLastAutosave = 0 ∧
    (autosaveCheck envAutosaveFail (autosaveCheck envAutosaveFail gsMonths1)).events =
        [Event.autosaveExport false, Event.autosaveCleanRun] ∧
    (autosaveCheck envAutosaveFail
        (autosaveCheck envAutosaveFail gsMonths1)).monthsSinceLastAutosave = 1 := by
  decide

/-- Claim C5: on every executed day boundary whose month changed, the
monthly economy update runs if and only if the in-game year has not
passed the cutoff year 2029; after the cutoff it never runs. -/
theorem C5_economy_cutoff (env : Env) (s : GState)
    (hg : env.tileManagerLoaded = true) (he : env.isEditorMode = false)
    (hd : (env.updateDayCounter s.currentDay).1 = true)
    (hm : (env.calcDate (env.updateDayCounter s.currentDay).2).month ≠
        (env.calcDate
          (((env.updateDayCounter s.currentDay).2 + 4294967295) % 4294967296)).month)
    (hn : Event.economyMonthly ∉ s.events) :
    (Event.economyMonthly ∈ (dateTick env s).events ↔
      (env.calcDate (env.updateDayCounter s.currentDay).2).year ≤ 2029) := by
  unfold dateTick
  dsimp only
  rw [hg, he, hd]
  simp only [Bool.not_false, Bool.and_self, if_true]
  rw [dateTickDaily_mem_econ]
  simp only []
  constructor
  · intro hcase
    rcases hcase with hold | ⟨_, hy⟩
    · exact absurd hold hn
    · exact hy
  · intro hy
    exact Or.inr ⟨hm, hy⟩

/-- Witness for C5: a november to december 2029 rollover runs the
economy update. -/
theorem C5_economy_cutoff_witness :
    Event.economyMonthly ∈ (dateTick envDec2029 gs0).events :=
  (C5_economy_cutoff envDec2029 gs0 rfl rfl rfl (by decide) (by decide)).mpr (by decide)

/-- Claim C6, amended: AutosaveManager's monthly tick (the
increment-and-check of the cadence counter) is invoked on a day
boundary exactly when the month changed — including month changes whose
year did not change — and is not invoked when the month is unchanged;
the source places autosaveCheck inside the month-changed block, not the
year-changed block. -/
theorem C6_amended_autosave_on_month_change (env : Env) (s : GState)
    (hg : env.tileManagerLoaded = true) (he : env.isEditorMode = false)
    (hd : (env.updateDayCounter s.currentDay).1 = true) :
    ((env.calcDate (env.updateDayCounter s.currentDay).2).month ≠
        (env.calcDate
          (((env.updateDayCounter s.currentDay).2 + 4294967295) % 4294967296)).month →
      (dateTick env s).monthsSinceLastAutosave =
        autosaveCounterNext env s.monthsSinceLastAutosave) ∧
    ((env.calcDate (env.updateDayCounter s.currentDay).2).month =
        (env.calcDate
          (((env.updateDayCounter s.currentDay).2 + 4294967295) % 4294967296)).month →
      (dateTick env s).monthsSinceLastAutosave = s.monthsSinceLastAutosave) := by
  unfold dateTick
  dsimp only
  rw [hg, he, hd]
  simp only [Bool.not_false, Bool.and_self, if_true]
  constructor
  · intro hm
    exact dateTickDaily_months_changed env _ hm
  · intro hm
    exact dateTickDaily_months_same env _ hm

/-- Witness for C6 amended: a may to june rollover (same year)
increments the cadence counter by one. -/
theorem C6_amended_autosave_on_month_change_witness :
    (dateTick envMonthRoll gsMonths7).monthsSinceLastAutosave =
      autosaveCounterNext envMonthRoll gsMonths7.monthsSinceLastAutosave :=
  (C6_amended_autosave_on_month_change envMonthRoll gsMonths7 rfl rfl rfl).1 (by decide)

/-- Counterexample for C6 as stated: a day boundary rolling may into
june of 1950 — the year did not change — still invokes the autosave
monthly tick: the cadence counter moves from seven to eight, though the
claim says the tick is only invoked when the year changed. -/
theorem C6_counterexample :
    (envMonthRoll.calcDate 10).year = (envMonthRoll.calcDate 9).year ∧
    (envMonthRoll.calcDate 10).month ≠ (envMonthRoll.calcDate 9).month ∧
    gsMonths7.monthsSinceLastAutosave = 7 ∧
    (dateTick envMonthRoll gsMonths7).monthsSinceLastAutosave = 8 := by
  decide

/-- Claim C7, amended: after each executed tick the load-error cell is
consumed: code zero shows nothing and stays zero; code exactly -2 (not
every negative code) opens the error message box with the stored
message; any other nonzero code — including other negative codes such
as -1 — opens the object-error list; in every nonzero case the code is
cleared back to zero. -/
theorem C7_amended_error_consume (env : Env) (s : GState)
    (hp : env.shouldProcessTick ((s.scenarioTicks + 1) % 4294967296) = true) :
    (s.loadErrorCode = 0 →
      (tickLogic env s).loadErrorCode = 0 ∧
      (∀ t0 : Nat, Event.errorOpen t0 ∈ (tickLogic env s).events →
        Event.errorOpen t0 ∈ s.events) ∧
      (Event.objectLoadErrorOpen ∈ (tickLogic env s).events →
        Event.objectLoadErrorOpen ∈ s.events)) ∧
    (s.loadErrorCode = -2 →
      (tickLogic env s).loadErrorCode = 0 ∧
      Event.errorOpen s.loadErrorMessage ∈ (tickLogic env s).events) ∧
    (s.loadErrorCode ≠ 0 → s.loadErrorCode ≠ -2 →
      (tickLogic env s).loadErrorCode = 0 ∧
      Event.objectLoadErrorOpen ∈ (tickLogic env s).events) := by
  have hbody : tickLogic env s = tickLogicBody env s := by
    unfold tickLogic
    simp [hp]
  rw [hbody]
  refine ⟨?_, ?_, ?_⟩
  · intro h0
    refine ⟨?_, ?_, ?_⟩
    · rcases tickLogicBody_loadErrorCode env s with hc | ⟨hc, _⟩
      · exact hc
      · rw [hc, h0]
    · intro t0 hmem
      rcases (tickLogicBody_mem_errorOpen env s t0).mp hmem with hold | ⟨hneg, _⟩
      · exact hold
      · rw [h0] at hneg
        exact absurd hneg (by decide)
    · intro hmem
      rcases (tickLogicBody_mem_objErr env s).mp hmem with hold | ⟨hne, _⟩
      · exact hold
      · exact absurd h0 hne
  · intro h2
    refine ⟨?_, ?_⟩
    · rcases tickLogicBody_loadErrorCode env s with hc | ⟨_, hc0⟩
      · exact hc
      · rw [h2] at hc0
        exact absurd hc0 (by decide)
    · exact (tickLogicBody_mem_errorOpen env s s.loadErrorMessage).mpr (Or.inr ⟨h2, rfl⟩)
  · intro hne0 hne2
    refine ⟨?_, ?_⟩
    · rcases tickLogicBody_loadErrorCode env s with hc | ⟨_, hc0⟩
      · exact hc
      · exact absurd hc0 hne0
    · exact (tickLogicBody_mem_objErr env s).mpr (Or.inr ⟨hne0, hne2⟩)

/-- Witness for C7 amended: code -1 opens the object-error list and is
cleared. -/
theorem C7_amended_error_consume_witness :
    (tickLogic envAccept gsErrNeg1).loadErrorCode = 0 ∧
    Event.objectLoadErrorOpen ∈ (tickLogic envAccept gsErrNeg1).events :=
  (C7_amended_error_consume envAccept gsErrNeg1 rfl).2.2 (by decide) (by decide)

/-- Counterexample for C7 as stated: the code -1 is negative, yet the
executed tick opens no message box at all — it opens the object-error
list — before clearing the code; the claim said every negative code
shows a message box. -/
theorem C7_counterexample :
    gsErrNeg1.loadErrorCode < 0 ∧
    (tickLogic envAccept gsErrNeg1).events.any isMessageBoxEvent = false ∧
    Event.objectLoadErrorOpen ∈ (tickLogic envAccept gsErrNeg1).events ∧
    (tickLogic envAccept gsErrNeg1).loadErrorCode = 0 := by
  decide

/-- Claim C8, amended: for a configured retention count of at least one
and below the number of matching autosave files, exactly the excess
oldest files in ascending name order are deleted and the newest k
remain (retention counts below one are clamped to one by the source,
which the counterexample exhibits). -/
theorem C8_retention (ext : String) (k : Int) (entries : List (String × Bool))
    (h1 : 1 ≤ k) (h2 : k.toNat < (autosaveMatching ext entries).length) :
    (autosaveClean ext k entries).1 =
      (List.insertionSort (fun a b => a ≤ b) (autosaveMatching ext entries)).take
        ((autosaveMatching ext entries).length - k.toNat) ∧
    (autosaveClean ext k entries).2 =
      (List.insertionSort (fun a b => a ≤ b) (autosaveMatching ext entries)).drop
        ((autosaveMatching ext entries).length - k.toNat) ∧
    (autosaveClean ext k entries).2.length = k.toNat := by
  have hmax : max 1 k = k := max_eq_right h1
  have hgt : (autosaveMatching ext entries).length > (max 1 k).toNat := by
    rw [hmax]
    exact h2
  unfold autosaveClean
  dsimp only
  rw [if_pos hgt, hmax]
  refine ⟨rfl, rfl, ?_⟩
  rw [List.length_drop, (List.perm_insertionSort _ _).length_eq]
  omega

/-- Witness for C8: three matching files, retention two, keeps exactly
two. -/
theorem C8_retention_witness :
    (1:Int) ≤ 2 ∧
    (2:Int).toNat < (autosaveMatching ".sv5" entriesThree).length ∧
    (autosaveClean ".sv5" 2 entriesThree).2.length = (2:Int).toNat :=
  ⟨by decide, by decide, (C8_retention ".sv5" 2 entriesThree (by decide) (by decide)).2.2⟩

/-- Counterexample for C8 as stated: a configured retention count of
zero with one matching file (k < N) deletes nothing and keeps the file,
because the source clamps the retention to at least one; the claim
required exactly N - k = 1 deletion leaving 0 files. -/
theorem C8_counterexample :
    (0:Int).toNat < (autosaveMatching ".sv5" entriesOne).length ∧
    (autosaveClean ".sv5" 0 entriesOne).1 = [] ∧
    (autosaveClean ".sv5" 0 entriesOne).2 = ["autosave_2024-01-01_00-00-00.sv5"] := by
  decide

/-- Claim C9, amended: in variable-step mode the interpolation factor
handed to the tweener equals min(accumulator / fixedStepSeconds, 1)
computed from the accumulator as it stands BEFORE the tick loop (the
source computes alpha above the while loop), not from the remaining
accumulator after the loop; rendering occurs exactly once regardless of
how many ticks ran, and the final accumulator is the loop residue. -/
theorem C9_amended_alpha_preloop (updateTime : Dy) (fuel : Nat) (s : SchedState) :
    (variableUpdate updateTime fuel s).lastAlpha =
      some (dyMin (toF (divD s.accumulator updateTime)) ⟨1, 0⟩) ∧
    (variableUpdate updateTime fuel s).accumulator =
      (varLoopD updateTime fuel s.accumulator).2 ∧
    (variableUpdate updateTime fuel s).ticksRun =
      s.ticksRun + (varLoopD updateTime fuel s.accumulator).1 ∧
    (variableUpdate updateTime fuel s).renders = s.renders + 1 :=
  ⟨rfl, rfl, rfl, rfl⟩

/-- Counterexample for C9 as stated: with the accumulator at the double
nearest 0.05 and a step of the double nearest 1/30, the loop runs one
tick leaving about 0.0167; the factor the code applies is 1 (computed
from the pre-loop accumulator 0.05, since 0.05/(1/30) = 1.5 clamps to
one), while min of the post-loop accumulator over the step and one is
one half — so the applied factor differs from the claimed formula.  The
loop exit is certified by the final accumulator being at most the
step. -/
theorem C9_counterexample :
    (variableUpdate (ofRatD 1 30) 32 schedC9).lastAlpha = some ⟨1, 0⟩ ∧
    dyEqv (dyMin (toF (divD (variableUpdate (ofRatD 1 30) 32 schedC9).accumulator
        (ofRatD 1 30))) ⟨1, 0⟩) ⟨1, -1⟩ = true ∧
    dyEqv ⟨1, 0⟩ ⟨1, -1⟩ = false ∧
    (variableUpdate (ofRatD 1 30) 32 schedC9).ticksRun = 1 ∧
    dyLe (variableUpdate (ofRatD 1 30) 32 schedC9).accumulator (ofRatD 1 30) = true ∧
    (variableUpdate (ofRatD 1 30) 32 schedC9).renders = 1 := by
  decide

/-- Claim C10: the whole date-boundary pass of an executed tick (daily,
monthly, quarterly, yearly updaters, the economy update and the
autosave check) runs only when the tileManagerLoaded game state flag is
set and the scene is not in editor mode; otherwise dateTick changes
nothing at all. -/
theorem C10_dateTick_guard (env : Env) (s : GState)
    (h : ¬(env.tileManagerLoaded = true ∧ env.isEditorMode = false)) :
    dateTick env s = s := by
  unfold dateTick
  cases htl : env.tileManagerLoaded <;> cases hed : env.isEditorMode <;> simp_all

/-- Witness for C10: with the tile manager not loaded, dateTick leaves
the state untouched. -/
theorem C10_dateTick_guard_witness :
    dateTick envNoTiles gs0 = gs0 :=
  C10_dateTick_guard envNoTiles gs0 (by decide)

end OpenLocoModel
